import Mathlib

/-!
# example1.c: a white rectangle on a black background, corners counted twice

A shallow embedding of `src/book_samples/example1/example1.c`.  The driver
(`errorCheck`, `makeInputImage`, `main`) is translated statement by statement.
The vision engine it calls (`VX/vx.h`, `VX/vxu.h`) is an external library: every
engine call is given a small model whose result status is supplied by an
`Engine` record (one field per call site), so that the theorems range over every
combination of outcomes the engine can produce.

A run is recorded as the list of observable events it performs (engine calls,
writes to standard output, `calloc`, `free`, reads of the local buffer) together
with the process exit code.
-/

namespace Example1

/-! ## Engine types -/

/-- Status codes of the engine (`vx_status`): zero is success, every other value a failure. -/
abbrev vx_status := Int

def VX_SUCCESS : vx_status := 0
def VX_ERROR_NO_RESOURCES : vx_status := -7
def VX_ERROR_INVALID_PARAMETERS : vx_status := -10

/-- The engine objects the driver holds a handle to, named after the C variables. -/
inductive Handle where
  | context
  | image1
  | roi
  | strength_thresh
  | corners
  | corners1
  | num_corners
  | num_corners1
  deriving DecidableEq, Repr

/-- A non-null reference to an engine object: which object, and the status `vxGetStatus` reports. -/
structure vx_reference where
  name : Handle
  status : vx_status
  deriving DecidableEq, Repr

/-- A rectangle as the driver writes it (`vx_rectangle_t`). -/
structure vx_rectangle_t where
  start_x : Nat
  start_y : Nat
  end_x : Nat
  end_y : Nat
  deriving DecidableEq, Repr

/-- A non-null image reference: the object, and the window of the underlying pixel storage it
spans.  A region view is an image reference whose window lies inside its parent's. -/
structure vx_image where
  ref : vx_reference
  origin_x : Nat
  origin_y : Nat
  width : Nat
  height : Nat
  deriving DecidableEq, Repr

/-- A detected point (`vx_keypoint_t`): coordinates, then the detector's metadata, which the driver
copies but never inspects. -/
structure vx_keypoint_t where
  x : Int
  y : Int
  strength : Int
  scale : Int
  orientation : Int
  tracking_status : Int
  error : Int
  deriving DecidableEq, Repr

/-- The record `calloc` leaves in every slot: all fields zero. -/
def zeroKeypoint : vx_keypoint_t := ⟨0, 0, 0, 0, 0, 0, 0⟩

/-- The pixel storage of the one image the program creates: the value at column `x`, row `y`. -/
abbrev Storage := Nat → Nat → Nat

/-- What the engine does at each call site of the program: the status of every call, the width and
height it gives the view of a rectangle, the records and the count each detection leaves behind,
whether `calloc` succeeds, and the unspecified content of a freshly created image. -/
structure Engine where
  context_status : vx_status
  image_status : vx_status
  roi_status : vx_status
  roi_extent : vx_rectangle_t → Nat × Nat
  set_black_status : vx_status
  set_white_status : vx_status
  strength_thresh_status : vx_status
  corners_status : vx_status
  corners1_status : vx_status
  num_corners_status : vx_status
  num_corners1_status : vx_status
  calloc_ok : Bool
  fast_nms_status : vx_status
  fast_plain_status : vx_status
  detected_nms : List vx_keypoint_t
  detected_plain : List vx_keypoint_t
  total_nms : Nat
  total_plain : Nat
  copy_scalar_status : vx_status
  copy_range_status : vx_status
  copy_scalar1_status : vx_status
  copy_range1_status : vx_status
  initial_pixels : Storage

/-! ## Events and runs -/

/-- One observable action of the program. -/
inductive Event where
  | create (h : Handle) (status : vx_status)
  | setPixels (h : Handle) (value : Nat) (status : vx_status)
  | release (h : Handle)
  | calloc (ok : Bool)
  | free
  | fastCorners (nms : Bool) (out : Handle) (count : Handle) (status : vx_status)
  | copyScalar (h : Handle) (status : vx_status)
  | copyArrayRange (h : Handle) (range_start range_end : Nat) (status : vx_status)
  | readKp (src : Handle) (i : Nat)
  | write (s : String)
  deriving DecidableEq, Repr

/-- A finished run: what happened, in order, and the exit code of the process. -/
structure Run where
  trace : List Event
  code : Nat
  deriving DecidableEq, Repr

/-- The run that first performs `evs` and then goes on as `r`. -/
def Run.after (evs : List Event) (r : Run) : Run := ⟨evs ++ r.trace, r.code⟩

/-! ## Model of the engine calls -/

/-- Modelled from the spec: `vxGetStatus` of the external engine (status/validity query on any
handle, zero meaning success).  A null reference is not a valid object, so its status is a
failure; otherwise the status is the one the object was created with. -/
def vxGetStatus : Option vx_reference → vx_status
  | none => VX_ERROR_NO_RESOURCES
  | some r => r.status

/-- Modelled from the spec: `vxCreateImage` of the external engine (create-image(width, height,
pixel-format)).  The reference returned is never null; on failure it is an error object, whose
status is not zero. -/
def vxCreateImage (status : vx_status) (width height : Nat) : vx_image :=
  ⟨⟨Handle.image1, status⟩, 0, 0, width, height⟩

/-- Modelled from the spec: `vxCreateImageFromROI` of the external engine (create-region-view(image,
rect), a handle aliasing the parent's storage).  The view starts at the rectangle's start corner.
How far it reaches, that is whether the end column and the end row belong to it, is the engine's
convention and is not fixed by the sources: the width and height are a parameter, supplied by the
engine. -/
def vxCreateImageFromROI (status : vx_status) (extent : Nat × Nat) (img : vx_image)
    (rect : vx_rectangle_t) : vx_image :=
  ⟨⟨Handle.roi, status⟩, img.origin_x + rect.start_x, img.origin_y + rect.start_y,
    extent.1, extent.2⟩

/-- Modelled from the spec: `vxSetImagePixelValues` of the external engine (set-all-pixels on an
image or a view).  On success every pixel of the window the reference spans takes the value, in
the storage the image and its views share; on failure the storage is left as it was. -/
def vxSetImagePixelValues (status : vx_status) (img : vx_image) (value : Nat) (mem : Storage) :
    vx_status × Storage :=
  if status = VX_SUCCESS then
    (status, fun x y =>
      if img.origin_x ≤ x ∧ x < img.origin_x + img.width ∧
          img.origin_y ≤ y ∧ y < img.origin_y + img.height then value else mem x y)
  else (status, mem)

/-- Modelled from the spec: `vxCreateArray` of the external engine (create-collection(element-type,
capacity)): what a collection of the given capacity keeps of the records handed to it. -/
def arrayStore (capacity : Nat) (items : List vx_keypoint_t) : List vx_keypoint_t :=
  items.take capacity

/-- Modelled from the spec: `vxuFastCorners` of the external engine (run-detection), one
engine-internal step.  On success the output collection holds the detected records, as many as its
capacity allows, and the count scalar holds the number the engine reports; on failure both are
left as created (no record, count 0). -/
def vxuFastCorners (status : vx_status) (capacity : Nat) (detected : List vx_keypoint_t)
    (total : Nat) : vx_status × List vx_keypoint_t × Nat :=
  if status = VX_SUCCESS then (status, arrayStore capacity detected, total) else (status, [], 0)

/-- Modelled from the spec: `vxCopyScalar` of the external engine with `VX_READ_ONLY` (copy a value
from the engine to local memory).  On success the local variable takes the scalar's value; on
failure it keeps its own. -/
def vxCopyScalar (status : vx_status) (scalar : Nat) (user : Nat) : vx_status × Nat :=
  if status = VX_SUCCESS then (status, scalar) else (status, user)

/-- Modelled from the spec: `vxCopyArrayRange` of the external engine with `VX_READ_ONLY`
(copy-range from the engine to a local buffer).  The call succeeds only when the requested range
lies within the records the collection holds; it then writes the records `range_start`, ...,
`range_end - 1` over the first slots of the local buffer.  On failure the buffer is untouched. -/
def vxCopyArrayRange (status : vx_status) (items : List vx_keypoint_t) (range_start range_end : Nat)
    (user : List vx_keypoint_t) : vx_status × List vx_keypoint_t :=
  if status = VX_SUCCESS then
    if range_end ≤ items.length then
      (VX_SUCCESS,
        (items.drop range_start).take (range_end - range_start) ++
          user.drop (range_end - range_start))
    else (VX_ERROR_INVALID_PARAMETERS, user)
  else (status, user)

/-- The C library's `calloc(n, sizeof(vx_keypoint_t))`: a null pointer, or `n` zeroed records. -/
def calloc (ok : Bool) (n : Nat) : Option (List vx_keypoint_t) :=
  if ok then some (List.replicate n zeroKeypoint) else none

/-! ## Output formatting -/

/-- The C library's `puts`: the string, then a newline. -/
def puts (s : String) : Event := Event.write (s ++ "\n")

/-- The conversion `%3d`: decimal, padded with blanks on the left to three characters. -/
def fmt_3d (i : Int) : String :=
  let s := toString i
  String.mk (List.replicate (3 - s.length) ' ') ++ s

/-- The line `printf("Found %zu corners with non-max suppression\n", n)` writes. -/
def foundWith (n : Nat) : String :=
  "Found " ++ toString n ++ " corners with non-max suppression\n"

/-- The line `printf("Found %zu corners without non-max suppression\n", n)` writes. -/
def foundWithout (n : Nat) : String :=
  "Found " ++ toString n ++ " corners without non-max suppression\n"

/-- The line `printf("Entry %3d: x = %d, y = %d\n", i, x, y)` writes. -/
def entryLine (i : Nat) (x y : Int) : String :=
  "Entry " ++ fmt_3d i ++ ": x = " ++ toString x ++ ", y = " ++ toString y ++ "\n"

/-! ## The driver -/

/-- The source's `errorCheck`: when `status` is not zero, write "ERROR! " and the message, release
the context and leave the process with code 1; otherwise return to the caller, whose remaining
run is `rest`. -/
def errorCheck (status : vx_status) (message : String) (rest : Run) : Run :=
  if status ≠ 0 then
    ⟨[puts "ERROR! ", puts message, Event.release Handle.context], 1⟩
  else rest

/-- What `makeInputImage` hands back: the returned pointer (`none` is the null pointer a release
leaves in `image`), the pixel storage, and the events performed. -/
structure InputImage where
  image : Option vx_image
  pixels : Storage
  trace : List Event

/-- The source's `makeInputImage`. -/
def makeInputImage (e : Engine) : InputImage :=
  let image := vxCreateImage e.image_status 100 100
  let rect : vx_rectangle_t := ⟨20, 40, 80, 60⟩
  let t0 := [Event.create Handle.image1 image.ref.status]
  if VX_SUCCESS = vxGetStatus (some image.ref) then
    let roi := vxCreateImageFromROI e.roi_status (e.roi_extent rect) image rect
    let pixel_white := 255
    let pixel_black := 0
    let t1 := t0 ++ [Event.create Handle.roi roi.ref.status]
    if VX_SUCCESS = vxGetStatus (some roi.ref) then
      let black := vxSetImagePixelValues e.set_black_status image pixel_black e.initial_pixels
      let t2 := t1 ++ [Event.setPixels Handle.image1 pixel_black black.1]
      if VX_SUCCESS = black.1 then
        let white := vxSetImagePixelValues e.set_white_status roi pixel_white black.2
        let t3 := t2 ++ [Event.setPixels Handle.roi pixel_white white.1]
        if VX_SUCCESS = white.1 then
          ⟨some image, white.2, t3 ++ [Event.release Handle.roi]⟩
        else ⟨none, white.2, t3 ++ [Event.release Handle.image1]⟩
      else ⟨none, black.2, t2 ++ [Event.release Handle.image1]⟩
    else ⟨none, e.initial_pixels, t1 ++ [Event.release Handle.image1]⟩
  else ⟨some image, e.initial_pixels, t0⟩

/-- The C operator `||` on two integers read as truth values: 1 when either is not zero. -/
def c_or (a b : Int) : Int := if a ≠ 0 ∨ b ≠ 0 then 1 else 0

/-- The loop `for (int i = 0; i < num_corners_value; ++i) printf(..., i, kp[i].x, kp[i].y)`,
entered with index `i`; `fuel` bounds the number of iterations and `src` names the collection the
buffer was last filled from. -/
def reportLoop (src : Handle) (kp : List vx_keypoint_t) (num_corners_value : Nat) :
    Nat → Nat → List Event
  | 0, _ => []
  | fuel + 1, i =>
    if i < num_corners_value then
      Event.readKp src i ::
        Event.write (entryLine i (kp.getD i zeroKeypoint).x (kp.getD i zeroKeypoint).y) ::
        reportLoop src kp num_corners_value fuel (i + 1)
    else []

/-- The source's `main`. -/
def main (e : Engine) : Run :=
  let context : vx_reference := ⟨Handle.context, e.context_status⟩
  Run.after [Event.create Handle.context context.status] <|
  errorCheck (vxGetStatus (some context)) "Could not create a vx_context\n" <|
  let image1 := makeInputImage e
  Run.after image1.trace <|
  errorCheck (vxGetStatus (image1.image.map fun i => i.ref)) "Could not create image" <|
  let strength_thresh : vx_reference := ⟨Handle.strength_thresh, e.strength_thresh_status⟩
  let corners : vx_reference := ⟨Handle.corners, e.corners_status⟩
  let corners1 : vx_reference := ⟨Handle.corners1, e.corners1_status⟩
  let num_corners_value := 0
  let num_corners : vx_reference := ⟨Handle.num_corners, e.num_corners_status⟩
  let num_corners1 : vx_reference := ⟨Handle.num_corners1, e.num_corners1_status⟩
  let kp := calloc e.calloc_ok 100
  Run.after [Event.create Handle.strength_thresh strength_thresh.status,
    Event.create Handle.corners corners.status,
    Event.create Handle.corners1 corners1.status,
    Event.create Handle.num_corners num_corners.status,
    Event.create Handle.num_corners1 num_corners1.status,
    Event.calloc kp.isSome] <|
  errorCheck
    (c_or (if kp.isNone then 1 else 0)
      (c_or (vxGetStatus (some strength_thresh))
        (c_or (vxGetStatus (some corners))
          (c_or (vxGetStatus (some num_corners))
            (c_or (vxGetStatus (some corners1)) (vxGetStatus (some num_corners1)))))))
    "Could not create parameters for FastCorners" <|
  let buf := kp.getD []
  let fast := vxuFastCorners e.fast_nms_status 100 e.detected_nms e.total_nms
  Run.after [Event.fastCorners true Handle.corners Handle.num_corners fast.1] <|
  errorCheck fast.1 "Fast Corners function failed" <|
  let fast1 := vxuFastCorners e.fast_plain_status 100 e.detected_plain e.total_plain
  Run.after [Event.fastCorners false Handle.corners1 Handle.num_corners1 fast1.1] <|
  errorCheck fast1.1 "Fast Corners function failed" <|
  let got := vxCopyScalar e.copy_scalar_status fast.2.2 num_corners_value
  Run.after [Event.copyScalar Handle.num_corners got.1] <|
  errorCheck got.1 "vxCopyScalar failed" <|
  let num_corners_value := got.2
  Run.after [Event.write (foundWith num_corners_value)] <|
  let copied := vxCopyArrayRange e.copy_range_status fast.2.1 0 num_corners_value buf
  Run.after [Event.copyArrayRange Handle.corners 0 num_corners_value copied.1] <|
  errorCheck copied.1 "vxCopyArrayRange failed" <|
  let buf := copied.2
  Run.after (reportLoop Handle.corners buf num_corners_value num_corners_value 0) <|
  let got1 := vxCopyScalar e.copy_scalar1_status fast1.2.2 num_corners_value
  Run.after [Event.copyScalar Handle.num_corners1 got1.1] <|
  errorCheck got1.1 "vxCopyScalar failed" <|
  let num_corners_value := got1.2
  Run.after [Event.write (foundWithout num_corners_value)] <|
  let copied1 := vxCopyArrayRange e.copy_range1_status fast1.2.1 0 num_corners_value buf
  Run.after [Event.copyArrayRange Handle.corners1 0 num_corners_value copied1.1] <|
  errorCheck copied1.1 "vxCopyArrayRange failed" <|
  let buf := copied1.2
  Run.after (reportLoop Handle.corners1 buf num_corners_value num_corners_value 0) <|
  Run.after [Event.free, Event.release Handle.context] ⟨[], 0⟩

/-! ## Concrete engines -/

/-- An engine on which every call succeeds: the view of a rectangle spans `end - start` pixels each
way, the first detection finds two corners, the second three. -/
def okEngine : Engine where
  context_status := 0
  image_status := 0
  roi_status := 0
  roi_extent := fun r => (r.end_x - r.start_x, r.end_y - r.start_y)
  set_black_status := 0
  set_white_status := 0
  strength_thresh_status := 0
  corners_status := 0
  corners1_status := 0
  num_corners_status := 0
  num_corners1_status := 0
  calloc_ok := true
  fast_nms_status := 0
  fast_plain_status := 0
  detected_nms := [⟨20, 40, 1, 0, 0, 1, 0⟩, ⟨79, 59, 1, 0, 0, 1, 0⟩]
  detected_plain := [⟨20, 40, 1, 0, 0, 1, 0⟩, ⟨21, 40, 1, 0, 0, 1, 0⟩, ⟨79, 59, 1, 0, 0, 1, 0⟩]
  total_nms := 2
  total_plain := 3
  copy_scalar_status := 0
  copy_range_status := 0
  copy_scalar1_status := 0
  copy_range1_status := 0
  initial_pixels := fun x y => (x + y) % 256

/-- The engine of `okEngine`, except that painting the whole image black fails. -/
def paintFailEngine : Engine := { okEngine with set_black_status := -1 }

/-- The engine of `okEngine`, except that the first detection fails. -/
def detectFailEngine : Engine := { okEngine with fast_nms_status := -1 }

/-- The engine of `okEngine`, except that `calloc` returns a null pointer. -/
def callocFailEngine : Engine := { okEngine with calloc_ok := false }

/-! ## Vocabulary of the properties -/

/-- All four engine sub-steps of `makeInputImage` succeed. -/
def SubStepsSucceed (e : Engine) : Prop :=
  e.image_status = 0 ∧ e.roi_status = 0 ∧ e.set_black_status = 0 ∧ e.set_white_status = 0

instance (e : Engine) : Decidable (SubStepsSucceed e) := by
  unfold SubStepsSucceed; infer_instance

/-- The value the specification gives the pixel in column `x`, row `y`, its bounds read as the
closed intervals x in [20, 80], y in [40, 60]. -/
def closedRectPixel (x y : Nat) : Nat :=
  if 20 ≤ x ∧ x ≤ 80 ∧ 40 ≤ y ∧ y ≤ 60 then 255 else 0

/-- The number of pixels of a `width` by `height` image that hold `value`. -/
def pixelCount (mem : Storage) (width height value : Nat) : Nat :=
  ((Finset.range width ×ˢ Finset.range height).filter fun p => mem p.1 p.2 = value).card

/-- What the program wrote to standard output, in order. -/
def stdout : List Event → List String
  | [] => []
  | Event.write s :: t => s :: stdout t
  | _ :: t => stdout t

/-- How many times the handle `h` is released by an explicit call. -/
def releaseCount (h : Handle) : List Event → Nat
  | [] => 0
  | Event.release k :: t => (if k = h then 1 else 0) + releaseCount h t
  | _ :: t => releaseCount h t

/-- How many times the local buffer is freed. -/
def freeCount : List Event → Nat
  | [] => 0
  | Event.free :: t => 1 + freeCount t
  | _ :: t => freeCount t

/-- Whether the run obtained the handle `h`: the engine created the object and reported success. -/
def obtained (h : Handle) : List Event → Bool
  | [] => false
  | Event.create k s :: t => (decide (k = h) && decide (s = 0)) || obtained h t
  | _ :: t => obtained h t

/-- Whether `calloc` returned a buffer during the run. -/
def allocated : List Event → Bool
  | [] => false
  | Event.calloc ok :: t => ok || allocated t
  | _ :: t => allocated t

/-- Every parameter object is created and the local buffer is allocated. -/
def ParamsOk (e : Engine) : Prop :=
  e.calloc_ok = true ∧ e.strength_thresh_status = 0 ∧ e.corners_status = 0 ∧
    e.num_corners_status = 0 ∧ e.corners1_status = 0 ∧ e.num_corners1_status = 0

instance (e : Engine) : Decidable (ParamsOk e) := by
  unfold ParamsOk; infer_instance

/-- The checked steps of `main`, in the order the program performs them: session creation, image
build, parameter and buffer allocation, the two detections, then for each detection the copy of
its count and the copy of its records. -/
inductive Step where
  | context
  | image
  | params
  | detect
  | detect1
  | count
  | range
  | count1
  | range1
  deriving DecidableEq, Repr

/-- The checked steps in program order. -/
def Step.all : List Step :=
  [Step.context, Step.image, Step.params, Step.detect, Step.detect1, Step.count, Step.range,
    Step.count1, Step.range1]

/-- Whether a checked step succeeds on the engine `e`. -/
def stepOk (e : Engine) : Step → Bool
  | Step.context => decide (e.context_status = 0)
  | Step.image => decide (SubStepsSucceed e)
  | Step.params => decide (ParamsOk e)
  | Step.detect => decide (e.fast_nms_status = 0)
  | Step.detect1 => decide (e.fast_plain_status = 0)
  | Step.count => decide (e.copy_scalar_status = 0)
  | Step.range =>
    decide (e.copy_range_status = 0 ∧ e.total_nms ≤ (arrayStore 100 e.detected_nms).length)
  | Step.count1 => decide (e.copy_scalar1_status = 0)
  | Step.range1 =>
    decide (e.copy_range1_status = 0 ∧ e.total_plain ≤ (arrayStore 100 e.detected_plain).length)

/-- The message the program passes to `errorCheck` at each checked step. -/
def stepMessage : Step → String
  | Step.context => "Could not create a vx_context\n"
  | Step.image => "Could not create image"
  | Step.params => "Could not create parameters for FastCorners"
  | Step.detect => "Fast Corners function failed"
  | Step.detect1 => "Fast Corners function failed"
  | Step.count => "vxCopyScalar failed"
  | Step.range => "vxCopyArrayRange failed"
  | Step.count1 => "vxCopyScalar failed"
  | Step.range1 => "vxCopyArrayRange failed"

/-- The first checked step, in program order, that fails on `e`; `none` when all succeed. -/
def firstFailure (e : Engine) : Option Step :=
  Step.all.find? fun s => !stepOk e s

/-- Every checked step succeeds on `e`. -/
def AllStepsSucceed (e : Engine) : Prop :=
  ∀ s ∈ Step.all, stepOk e s = true

instance (e : Engine) : Decidable (AllStepsSucceed e) := by
  unfold AllStepsSucceed; infer_instance

/-- Every call into the engine succeeds on `e`: the creation of each object, both fills, both
detections, both copies of a count and both copies of records (a copy of records returning
success exactly when the engine reports no error and the range lies within the collection).
Nothing is said of `calloc`, which is no engine call. -/
def EngineCallsSucceed (e : Engine) : Prop :=
  e.context_status = 0 ∧ SubStepsSucceed e ∧
    (e.strength_thresh_status = 0 ∧ e.corners_status = 0 ∧ e.num_corners_status = 0 ∧
      e.corners1_status = 0 ∧ e.num_corners1_status = 0) ∧
    e.fast_nms_status = 0 ∧ e.fast_plain_status = 0 ∧ e.copy_scalar_status = 0 ∧
    (e.copy_range_status = 0 ∧ e.total_nms ≤ (arrayStore 100 e.detected_nms).length) ∧
    e.copy_scalar1_status = 0 ∧
    (e.copy_range1_status = 0 ∧ e.total_plain ≤ (arrayStore 100 e.detected_plain).length)

instance (e : Engine) : Decidable (EngineCallsSucceed e) := by
  unfold EngineCallsSucceed; infer_instance

/-- The events of the parameter allocation (source lines 99 to 108). -/
def paramEvents (e : Engine) : List Event :=
  [Event.create Handle.strength_thresh e.strength_thresh_status,
    Event.create Handle.corners e.corners_status,
    Event.create Handle.corners1 e.corners1_status,
    Event.create Handle.num_corners e.num_corners_status,
    Event.create Handle.num_corners1 e.num_corners1_status,
    Event.calloc e.calloc_ok]

/-- The events of a failing `errorCheck`: the two lines written, then the release of the context. -/
def abortEvents (message : String) : List Event :=
  [puts "ERROR! ", puts message, Event.release Handle.context]

/-- The local buffer after the first copy: the first `total_nms` records of the first collection,
then what `calloc` left. -/
def bufferAfterFirst (e : Engine) : List vx_keypoint_t :=
  (vxCopyArrayRange e.copy_range_status (arrayStore 100 e.detected_nms) 0 e.total_nms
    (List.replicate 100 zeroKeypoint)).2

/-- The local buffer after the second copy. -/
def bufferAfterSecond (e : Engine) : List vx_keypoint_t :=
  (vxCopyArrayRange e.copy_range1_status (arrayStore 100 e.detected_plain) 0 e.total_plain
    (bufferAfterFirst e)).2

/-- The events of each checked step: the calls and writes the program performs after the check
of the step before and up to the check of this one. -/
def segment (e : Engine) : Step → List Event
  | Step.context => [Event.create Handle.context e.context_status]
  | Step.image => (makeInputImage e).trace
  | Step.params => paramEvents e
  | Step.detect => [Event.fastCorners true Handle.corners Handle.num_corners e.fast_nms_status]
  | Step.detect1 =>
    [Event.fastCorners false Handle.corners1 Handle.num_corners1 e.fast_plain_status]
  | Step.count => [Event.copyScalar Handle.num_corners e.copy_scalar_status]
  | Step.range =>
    [Event.write (foundWith e.total_nms),
      Event.copyArrayRange Handle.corners 0 e.total_nms
        (vxCopyArrayRange e.copy_range_status (arrayStore 100 e.detected_nms) 0 e.total_nms
          (List.replicate 100 zeroKeypoint)).1]
  | Step.count1 =>
    reportLoop Handle.corners (bufferAfterFirst e) e.total_nms e.total_nms 0 ++
      [Event.copyScalar Handle.num_corners1 e.copy_scalar1_status]
  | Step.range1 =>
    [Event.write (foundWithout e.total_plain),
      Event.copyArrayRange Handle.corners1 0 e.total_plain
        (vxCopyArrayRange e.copy_range1_status (arrayStore 100 e.detected_plain) 0 e.total_plain
          (bufferAfterFirst e)).1]

/-- The events the program has performed when it reaches the check of step `s`, every earlier
step having succeeded. -/
def eventsUpTo (e : Engine) : Step → List Event
  | Step.context => segment e Step.context
  | Step.image => segment e Step.context ++ segment e Step.image
  | Step.params => segment e Step.context ++ (segment e Step.image ++ segment e Step.params)
  | Step.detect =>
    segment e Step.context ++ (segment e Step.image ++ (segment e Step.params ++
      segment e Step.detect))
  | Step.detect1 =>
    segment e Step.context ++ (segment e Step.image ++ (segment e Step.params ++
      (segment e Step.detect ++ segment e Step.detect1)))
  | Step.count =>
    segment e Step.context ++ (segment e Step.image ++ (segment e Step.params ++
      (segment e Step.detect ++ (segment e Step.detect1 ++ segment e Step.count))))
  | Step.range =>
    segment e Step.context ++ (segment e Step.image ++ (segment e Step.params ++
      (segment e Step.detect ++ (segment e Step.detect1 ++ (segment e Step.count ++
        segment e Step.range)))))
  | Step.count1 =>
    segment e Step.context ++ (segment e Step.image ++ (segment e Step.params ++
      (segment e Step.detect ++ (segment e Step.detect1 ++ (segment e Step.count ++
        (segment e Step.range ++ segment e Step.count1))))))
  | Step.range1 =>
    segment e Step.context ++ (segment e Step.image ++ (segment e Step.params ++
      (segment e Step.detect ++ (segment e Step.detect1 ++ (segment e Step.count ++
        (segment e Step.range ++ (segment e Step.count1 ++ segment e Step.range1)))))))

/-- The run `main` performs, told from the first failing step: the events up to that step's check
followed by the abort of `errorCheck`, or, when no step fails, every event up to the last check,
the second report, and the teardown. -/
def runOf (e : Engine) : Run :=
  match firstFailure e with
  | some s => ⟨eventsUpTo e s ++ abortEvents (stepMessage s), 1⟩
  | none =>
    ⟨eventsUpTo e Step.range1 ++
      (reportLoop Handle.corners1 (bufferAfterSecond e) e.total_plain e.total_plain 0 ++
        [Event.free, Event.release Handle.context]), 0⟩

/-- The states of the specification's linear state machine. -/
inductive Phase where
  | init
  | buildImage
  | allocParams
  | detect (nms : Bool)
  | report (src : Handle)
  | teardown
  deriving DecidableEq, Repr

/-- The state an event belongs to.  A detection belongs to `detect`, told apart by its flag; the
copy of a count, the copy of the records and the reads of the buffer belong to the report of the
collection they concern; `free` and the release of the context are the teardown.  Writes carry no
handle and are left out. -/
def phaseOf : Event → Option Phase
  | Event.create Handle.context _ => some Phase.init
  | Event.create Handle.image1 _ => some Phase.buildImage
  | Event.create Handle.roi _ => some Phase.buildImage
  | Event.create _ _ => some Phase.allocParams
  | Event.setPixels _ _ _ => some Phase.buildImage
  | Event.release Handle.context => some Phase.teardown
  | Event.release _ => some Phase.buildImage
  | Event.calloc _ => some Phase.allocParams
  | Event.free => some Phase.teardown
  | Event.fastCorners nms _ _ _ => some (Phase.detect nms)
  | Event.copyScalar Handle.num_corners _ => some (Phase.report Handle.corners)
  | Event.copyScalar _ _ => some (Phase.report Handle.corners1)
  | Event.copyArrayRange h _ _ _ => some (Phase.report h)
  | Event.readKp src _ => some (Phase.report src)
  | Event.write _ => none

/-- The list without the repetitions of an element right after itself. -/
def compress : List Phase → List Phase
  | [] => []
  | [a] => [a]
  | a :: b :: t => if a = b then compress (b :: t) else a :: compress (b :: t)

/-- The states a run goes through, in order. -/
def phases (t : List Event) : List Phase := compress (t.filterMap phaseOf)

/-- The order of states the specification gives for a successful run. -/
def specPhases : List Phase :=
  [Phase.init, Phase.buildImage, Phase.allocParams, Phase.detect true,
    Phase.report Handle.corners, Phase.detect false, Phase.report Handle.corners1,
    Phase.teardown]

/-- The order of states the program goes through on a successful run. -/
def codePhases : List Phase :=
  [Phase.init, Phase.buildImage, Phase.allocParams, Phase.detect true, Phase.detect false,
    Phase.report Handle.corners, Phase.report Handle.corners1, Phase.teardown]

/-! ## Engine calls: basic facts -/

theorem vxGetStatus_some (r : vx_reference) : vxGetStatus (some r) = r.status := rfl

theorem vxuFastCorners_fst (s : vx_status) (c : Nat) (d : List vx_keypoint_t) (t : Nat) :
    (vxuFastCorners s c d t).1 = s := by
  unfold vxuFastCorners; split <;> rfl

theorem vxuFastCorners_ok (c : Nat) (d : List vx_keypoint_t) (t : Nat) :
    vxuFastCorners 0 c d t = (0, arrayStore c d, t) := by
  simp [vxuFastCorners, VX_SUCCESS]

theorem vxCopyScalar_fst (s : vx_status) (a u : Nat) : (vxCopyScalar s a u).1 = s := by
  unfold vxCopyScalar; split <;> rfl

theorem vxCopyScalar_ok (a u : Nat) : vxCopyScalar 0 a u = (0, a) := by
  simp [vxCopyScalar, VX_SUCCESS]

theorem vxCopyArrayRange_fst (s : vx_status) (items user : List vx_keypoint_t) (a b : Nat) :
    (vxCopyArrayRange s items a b user).1 = 0 ↔ s = 0 ∧ b ≤ items.length := by
  unfold vxCopyArrayRange
  by_cases hs : s = VX_SUCCESS
  · by_cases hb : b ≤ items.length
    · simp [hs, hb, VX_SUCCESS]
    · simp [hs, hb, VX_SUCCESS, VX_ERROR_INVALID_PARAMETERS]
  · have hs' : ¬ s = 0 := hs
    simp [hs, hs']

theorem vxCopyArrayRange_ok (items user : List vx_keypoint_t) (b : Nat) (hb : b ≤ items.length) :
    (vxCopyArrayRange 0 items 0 b user).2 = items.take b ++ user.drop b := by
  simp [vxCopyArrayRange, VX_SUCCESS, hb]

theorem arrayStore_length_le (c : Nat) (d : List vx_keypoint_t) :
    (arrayStore c d).length ≤ c := by
  simp [arrayStore]

/-! ## makeInputImage -/

theorem makeInputImage_ok (e : Engine) (h : SubStepsSucceed e) :
    makeInputImage e =
      ⟨some ⟨⟨Handle.image1, 0⟩, 0, 0, 100, 100⟩,
        (fun x y =>
          if 20 ≤ x ∧ x < 20 + (e.roi_extent ⟨20, 40, 80, 60⟩).1 ∧
              40 ≤ y ∧ y < 40 + (e.roi_extent ⟨20, 40, 80, 60⟩).2 then 255
          else if x < 100 ∧ y < 100 then 0 else e.initial_pixels x y),
        [Event.create Handle.image1 0, Event.create Handle.roi 0,
          Event.setPixels Handle.image1 0 0, Event.setPixels Handle.roi 255 0,
          Event.release Handle.roi]⟩ := by
  obtain ⟨h1, h2, h3, h4⟩ := h
  simp [makeInputImage, vxCreateImage, vxCreateImageFromROI, vxSetImagePixelValues, vxGetStatus,
    VX_SUCCESS, h1, h2, h3, h4]

theorem makeInputImage_status (e : Engine) :
    vxGetStatus ((makeInputImage e).image.map fun i => i.ref) = 0 ↔ SubStepsSucceed e := by
  unfold SubStepsSucceed
  by_cases h1 : e.image_status = 0
  · by_cases h2 : e.roi_status = 0
    · by_cases h3 : e.set_black_status = 0
      · by_cases h4 : e.set_white_status = 0
        · simp [makeInputImage, vxCreateImage, vxCreateImageFromROI, vxSetImagePixelValues,
            vxGetStatus, VX_SUCCESS, h1, h2, h3, h4]
        · have h4' : ¬ (0 = e.set_white_status) := fun h => h4 h.symm
          simp [makeInputImage, vxCreateImage, vxCreateImageFromROI, vxSetImagePixelValues,
            vxGetStatus, VX_SUCCESS, VX_ERROR_NO_RESOURCES, h1, h2, h3, h4, h4']
      · have h3' : ¬ (0 = e.set_black_status) := fun h => h3 h.symm
        simp [makeInputImage, vxCreateImage, vxCreateImageFromROI, vxSetImagePixelValues,
          vxGetStatus, VX_SUCCESS, VX_ERROR_NO_RESOURCES, h1, h2, h3, h3']
    · have h2' : ¬ (0 = e.roi_status) := fun h => h2 h.symm
      simp [makeInputImage, vxCreateImage, vxCreateImageFromROI, vxSetImagePixelValues,
        vxGetStatus, VX_SUCCESS, VX_ERROR_NO_RESOURCES, h1, h2, h2']
  · have h1' : ¬ (0 = e.image_status) := fun h => h1 h.symm
    simp [makeInputImage, vxCreateImage, vxGetStatus, VX_SUCCESS, h1, h1']

theorem c_or_eq_zero (a b : Int) : c_or a b = 0 ↔ a = 0 ∧ b = 0 := by
  unfold c_or
  by_cases ha : a = 0 <;> by_cases hb : b = 0 <;> simp [ha, hb]

theorem params_status (e : Engine) :
    c_or (if (calloc e.calloc_ok 100).isNone then 1 else 0)
      (c_or e.strength_thresh_status
        (c_or e.corners_status
          (c_or e.num_corners_status
            (c_or e.corners1_status e.num_corners1_status)))) = 0
      ↔ ParamsOk e := by
  simp only [c_or_eq_zero, ParamsOk, calloc]
  cases e.calloc_ok <;> simp

theorem calloc_isSome (ok : Bool) (n : Nat) : (calloc ok n).isSome = ok := by
  cases ok <;> rfl

theorem calloc_getD (n : Nat) : (calloc true n).getD [] = List.replicate n zeroKeypoint := rfl

/-- The source's `main` performs exactly the run told from its first failing step. -/
theorem main_eq_runOf (e : Engine) : main e = runOf e := by
  have hs := makeInputImage_status e
  have hp := params_status e
  by_cases h0 : e.context_status = 0
  · by_cases h1 : SubStepsSucceed e
    · by_cases h2 : ParamsOk e
      · by_cases h3 : e.fast_nms_status = 0
        · by_cases h4 : e.fast_plain_status = 0
          · by_cases h5 : e.copy_scalar_status = 0
            · by_cases h6 : e.copy_range_status = 0 ∧
                  e.total_nms ≤ (arrayStore 100 e.detected_nms).length
              · by_cases h7 : e.copy_scalar1_status = 0
                · by_cases h8 : e.copy_range1_status = 0 ∧
                      e.total_plain ≤ (arrayStore 100 e.detected_plain).length
                  · simp only [main, errorCheck, Run.after, vxGetStatus_some, ne_eq, hs, hp, h0,
                      h1, h2, h3, h4, h5, h6, h7, h8, vxuFastCorners_ok, vxuFastCorners_fst,
                      vxCopyScalar_ok, vxCopyScalar_fst, vxCopyArrayRange_fst, not_true_eq_false,
                      not_false_eq_true, if_true, if_false, runOf, firstFailure, Step.all,
                      List.find?, stepOk, decide_True, decide_False, Bool.not_true,
                      Bool.not_false, eventsUpTo, segment, stepMessage, abortEvents, paramEvents,
                      calloc_isSome, bufferAfterFirst, bufferAfterSecond, and_self,
                      List.append_assoc, List.cons_append, List.nil_append]
                    simp only [h2.1, calloc_getD]
                  · simp only [main, errorCheck, Run.after, vxGetStatus_some, ne_eq, hs, hp, h0,
                      h1, h2, h3, h4, h5, h6, h7, h8, vxuFastCorners_ok, vxuFastCorners_fst,
                      vxCopyScalar_ok, vxCopyScalar_fst, vxCopyArrayRange_fst, not_true_eq_false,
                      not_false_eq_true, if_true, if_false, runOf, firstFailure, Step.all,
                      List.find?, stepOk, decide_True, decide_False, Bool.not_true,
                      Bool.not_false, eventsUpTo, segment, stepMessage, abortEvents, paramEvents,
                      calloc_isSome, bufferAfterFirst, bufferAfterSecond, and_self,
                      List.append_assoc, List.cons_append, List.nil_append]
                    simp only [h2.1, calloc_getD]
                · simp only [main, errorCheck, Run.after, vxGetStatus_some, ne_eq, hs, hp, h0, h1,
                    h2, h3, h4, h5, h6, h7, vxuFastCorners_ok, vxuFastCorners_fst,
                    vxCopyScalar_ok, vxCopyScalar_fst, vxCopyArrayRange_fst, not_true_eq_false,
                    not_false_eq_true, if_true, if_false, runOf, firstFailure, Step.all,
                    List.find?, stepOk, decide_True, decide_False, Bool.not_true, Bool.not_false,
                    eventsUpTo, segment, stepMessage, abortEvents, paramEvents, calloc_isSome,
                    bufferAfterFirst, bufferAfterSecond, and_self, List.append_assoc,
                    List.cons_append, List.nil_append]
                  simp only [h2.1, calloc_getD]
              · simp only [main, errorCheck, Run.after, vxGetStatus_some, ne_eq, hs, hp, h0, h1,
                  h2, h3, h4, h5, h6, vxuFastCorners_ok, vxuFastCorners_fst, vxCopyScalar_ok,
                  vxCopyScalar_fst, vxCopyArrayRange_fst, not_true_eq_false, not_false_eq_true,
                  if_true, if_false, runOf, firstFailure, Step.all, List.find?, stepOk,
                  decide_True, decide_False, Bool.not_true, Bool.not_false, eventsUpTo, segment,
                  stepMessage, abortEvents, paramEvents, calloc_isSome, bufferAfterFirst,
                  bufferAfterSecond, and_self, List.append_assoc, List.cons_append,
                  List.nil_append]
                simp only [h2.1, calloc_getD]
            · simp only [main, errorCheck, Run.after, vxGetStatus_some, ne_eq, hs, hp, h0, h1, h2,
                h3, h4, h5, vxuFastCorners_ok, vxuFastCorners_fst, vxCopyScalar_ok,
                vxCopyScalar_fst, vxCopyArrayRange_fst, not_true_eq_false, not_false_eq_true,
                if_true, if_false, runOf, firstFailure, Step.all, List.find?, stepOk, decide_True,
                decide_False, Bool.not_true, Bool.not_false, eventsUpTo, segment, stepMessage,
                abortEvents, paramEvents, calloc_isSome, bufferAfterFirst, bufferAfterSecond,
                and_self, List.append_assoc, List.cons_append, List.nil_append]
          · simp only [main, errorCheck, Run.after, vxGetStatus_some, ne_eq, hs, hp, h0, h1, h2,
              h3, h4, vxuFastCorners_ok, vxuFastCorners_fst, vxCopyScalar_ok, vxCopyScalar_fst,
              vxCopyArrayRange_fst, not_true_eq_false, not_false_eq_true, if_true, if_false,
              runOf, firstFailure, Step.all, List.find?, stepOk, decide_True, decide_False,
              Bool.not_true, Bool.not_false, eventsUpTo, segment, stepMessage, abortEvents,
              paramEvents, calloc_isSome, bufferAfterFirst, bufferAfterSecond, and_self,
              List.append_assoc, List.cons_append, List.nil_append]
        · simp only [main, errorCheck, Run.after, vxGetStatus_some, ne_eq, hs, hp, h0, h1, h2, h3,
            vxuFastCorners_ok, vxuFastCorners_fst, vxCopyScalar_ok, vxCopyScalar_fst,
            vxCopyArrayRange_fst, not_true_eq_false, not_false_eq_true, if_true, if_false, runOf,
            firstFailure, Step.all, List.find?, stepOk, decide_True, decide_False, Bool.not_true,
            Bool.not_false, eventsUpTo, segment, stepMessage, abortEvents, paramEvents,
            calloc_isSome, bufferAfterFirst, bufferAfterSecond, and_self, List.append_assoc,
            List.cons_append, List.nil_append]
      · simp only [main, errorCheck, Run.after, vxGetStatus_some, ne_eq, hs, hp, h0, h1, h2,
          vxuFastCorners_ok, vxuFastCorners_fst, vxCopyScalar_ok, vxCopyScalar_fst,
          vxCopyArrayRange_fst, not_true_eq_false, not_false_eq_true, if_true, if_false, runOf,
          firstFailure, Step.all, List.find?, stepOk, decide_True, decide_False, Bool.not_true,
          Bool.not_false, eventsUpTo, segment, stepMessage, abortEvents, paramEvents,
          calloc_isSome, bufferAfterFirst, bufferAfterSecond, and_self, List.append_assoc,
          List.cons_append, List.nil_append]
    · simp only [main, errorCheck, Run.after, vxGetStatus_some, ne_eq, hs, hp, h0, h1,
        vxuFastCorners_ok, vxuFastCorners_fst, vxCopyScalar_ok, vxCopyScalar_fst,
        vxCopyArrayRange_fst, not_true_eq_false, not_false_eq_true, if_true, if_false, runOf,
        firstFailure, Step.all, List.find?, stepOk, decide_True, decide_False, Bool.not_true,
        Bool.not_false, eventsUpTo, segment, stepMessage, abortEvents, paramEvents, calloc_isSome,
        bufferAfterFirst, bufferAfterSecond, and_self, List.append_assoc, List.cons_append,
        List.nil_append]
  · simp only [main, errorCheck, Run.after, vxGetStatus_some, ne_eq, hs, hp, h0,
      vxuFastCorners_ok, vxuFastCorners_fst, vxCopyScalar_ok, vxCopyScalar_fst,
      vxCopyArrayRange_fst, not_true_eq_false, not_false_eq_true, if_true, if_false, runOf,
      firstFailure, Step.all, List.find?, stepOk, decide_True, decide_False, Bool.not_true,
      Bool.not_false, eventsUpTo, segment, stepMessage, abortEvents, paramEvents, calloc_isSome,
      bufferAfterFirst, bufferAfterSecond, and_self, List.append_assoc, List.cons_append,
      List.nil_append]

/-! ## The input image

What the driver itself fixes is the order of the two fills and the rectangle it hands to the
engine; the extent of the view is the engine's.  The pixels are therefore described for every
extent, and then for the two readings of the rectangle (20, 40)-(80, 60): end coordinates
outside the view (a 60x20 region, as the source's comment at line 91 has it) and end coordinates
inside it (the closed bounds of the specification). -/

/-- When every sub-step succeeds, a pixel of the image holds 255 inside the window the engine
gave the view and 0 elsewhere, whatever the image held when it was created. -/
theorem makeInputImage_pixels (e : Engine) (h : SubStepsSucceed e) (x y : Nat)
    (hx : x < 100) (hy : y < 100) :
    (makeInputImage e).pixels x y =
      if 20 ≤ x ∧ x < 20 + (e.roi_extent ⟨20, 40, 80, 60⟩).1 ∧
          40 ≤ y ∧ y < 40 + (e.roi_extent ⟨20, 40, 80, 60⟩).2 then 255 else 0 := by
  rw [makeInputImage_ok e h]
  simp [hx, hy]

/-- With the end coordinates inside the view (61 columns, 21 rows) the image is the one the
closed bounds describe. -/
theorem makeInputImage_pixels_closed_extent (e : Engine) (h : SubStepsSucceed e)
    (hext : e.roi_extent ⟨20, 40, 80, 60⟩ = (61, 21)) (x y : Nat) (hx : x < 100) (hy : y < 100) :
    (makeInputImage e).pixels x y = closedRectPixel x y := by
  rw [makeInputImage_pixels e h x y hx hy, hext]
  unfold closedRectPixel
  by_cases hin : 20 ≤ x ∧ x ≤ 80 ∧ 40 ≤ y ∧ y ≤ 60
  · rw [if_pos hin, if_pos (by simp only; omega)]
  · rw [if_neg hin, if_neg (by simp only; omega)]

/-- With the end coordinates outside the view (60 columns, 20 rows) the pixels with 20 ≤ x < 80
and 40 ≤ y < 60 hold 255 and the others 0. -/
theorem makeInputImage_pixels_half_open_extent (e : Engine) (h : SubStepsSucceed e)
    (hext : e.roi_extent ⟨20, 40, 80, 60⟩ = (60, 20)) (x y : Nat) (hx : x < 100) (hy : y < 100) :
    (makeInputImage e).pixels x y = if 20 ≤ x ∧ x < 80 ∧ 40 ≤ y ∧ y < 60 then 255 else 0 := by
  rw [makeInputImage_pixels e h x y hx hy, hext]
  rfl

theorem pixelCount_white (mem : Storage)
    (h : ∀ x y, x < 100 → y < 100 →
      mem x y = if 20 ≤ x ∧ x < 80 ∧ 40 ≤ y ∧ y < 60 then 255 else 0) :
    pixelCount mem 100 100 255 = 1200 := by
  unfold pixelCount
  have : ((Finset.range 100 ×ˢ Finset.range 100).filter fun p => mem p.1 p.2 = 255) =
      Finset.Ico 20 80 ×ˢ Finset.Ico 40 60 := by
    ext ⟨x, y⟩
    simp only [Finset.mem_filter, Finset.mem_product, Finset.mem_range, Finset.mem_Ico]
    constructor
    · rintro ⟨⟨hx, hy⟩, hv⟩
      rw [h x y hx hy] at hv
      by_cases hin : 20 ≤ x ∧ x < 80 ∧ 40 ≤ y ∧ y < 60
      · omega
      · simp [hin] at hv
    · rintro ⟨⟨h1, h2⟩, h3, h4⟩
      have hx : x < 100 := by omega
      have hy : y < 100 := by omega
      refine ⟨⟨hx, hy⟩, ?_⟩
      rw [h x y hx hy]
      simp [h1, h2, h3, h4]
  rw [this, Finset.card_product, Nat.card_Ico, Nat.card_Ico]

/-- With the end coordinates outside the view, 1200 pixels of the image hold 255. -/
theorem makeInputImage_count_half_open_extent (e : Engine) (h : SubStepsSucceed e)
    (hext : e.roi_extent ⟨20, 40, 80, 60⟩ = (60, 20)) :
    pixelCount (makeInputImage e).pixels 100 100 255 = 1200 :=
  pixelCount_white _ (makeInputImage_pixels_half_open_extent e h hext)

/-! ## Traces: counting and output -/

theorem stdout_append (a b : List Event) : stdout (a ++ b) = stdout a ++ stdout b := by
  induction a with
  | nil => simp [stdout]
  | cons ev t ih => cases ev <;> simp [stdout, ih]

theorem releaseCount_append (h : Handle) (a b : List Event) :
    releaseCount h (a ++ b) = releaseCount h a + releaseCount h b := by
  induction a with
  | nil => simp [releaseCount]
  | cons ev t ih => cases ev <;> simp [releaseCount, ih, Nat.add_assoc]

theorem freeCount_append (a b : List Event) :
    freeCount (a ++ b) = freeCount a + freeCount b := by
  induction a with
  | nil => simp [freeCount]
  | cons ev t ih => cases ev <;> simp [freeCount, ih, Nat.add_assoc]

theorem allocated_append (a b : List Event) :
    allocated (a ++ b) = (allocated a || allocated b) := by
  induction a with
  | nil => simp [allocated]
  | cons ev t ih => cases ev <;> simp [allocated, ih, Bool.or_assoc]

theorem releaseCount_reportLoop (h src : Handle) (kp : List vx_keypoint_t) (n fuel i : Nat) :
    releaseCount h (reportLoop src kp n fuel i) = 0 := by
  induction fuel generalizing i with
  | zero => simp [reportLoop, releaseCount]
  | succ f ih =>
    unfold reportLoop
    split <;> simp [releaseCount, ih]

theorem freeCount_reportLoop (src : Handle) (kp : List vx_keypoint_t) (n fuel i : Nat) :
    freeCount (reportLoop src kp n fuel i) = 0 := by
  induction fuel generalizing i with
  | zero => simp [reportLoop, freeCount]
  | succ f ih =>
    unfold reportLoop
    split <;> simp [freeCount, ih]

theorem allocated_reportLoop (src : Handle) (kp : List vx_keypoint_t) (n fuel i : Nat) :
    allocated (reportLoop src kp n fuel i) = false := by
  induction fuel generalizing i with
  | zero => simp [reportLoop, allocated]
  | succ f ih =>
    unfold reportLoop
    split <;> simp [allocated, ih]

theorem stdout_reportLoop (src : Handle) (kp : List vx_keypoint_t) (n fuel i : Nat)
    (hf : n ≤ i + fuel) :
    stdout (reportLoop src kp n fuel i) =
      (List.range' i (n - i)).map fun j =>
        entryLine j (kp.getD j zeroKeypoint).x (kp.getD j zeroKeypoint).y := by
  induction fuel generalizing i with
  | zero =>
    have : n - i = 0 := by omega
    simp [reportLoop, stdout, this]
  | succ f ih =>
    unfold reportLoop
    by_cases hi : i < n
    · have hn : n - i = (n - (i + 1)) + 1 := by omega
      rw [if_pos hi, hn, List.range'_succ]
      simp only [stdout, List.map_cons]
      rw [ih (i + 1) (by omega)]
    · have : n - i = 0 := by omega
      simp [hi, stdout, this]

theorem mem_reportLoop (src s : Handle) (kp : List vx_keypoint_t) (n fuel i j : Nat)
    (h : Event.readKp s j ∈ reportLoop src kp n fuel i) : s = src ∧ i ≤ j ∧ j < n := by
  induction fuel generalizing i with
  | zero => simp [reportLoop] at h
  | succ f ih =>
    unfold reportLoop at h
    by_cases hi : i < n
    · rw [if_pos hi] at h
      simp only [List.mem_cons] at h
      rcases h with h | h | h
      · injection h with h1 h2
        exact ⟨h1, by omega, by omega⟩
      · cases h
      · have := ih (i + 1) h
        exact ⟨this.1, by omega, this.2.2⟩
    · simp [hi] at h

/-! ## Claims about makeInputImage -/

/-- C9 (the code at the failing input): the region view is created, painting the image black
fails, and makeInputImage returns a null pointer having released the parent image once and the
view not at all. -/
theorem makeInputImage_leaves_view_unreleased :
    obtained Handle.roi (makeInputImage paintFailEngine).trace = true ∧
      (makeInputImage paintFailEngine).image = none ∧
      releaseCount Handle.image1 (makeInputImage paintFailEngine).trace = 1 ∧
      releaseCount Handle.roi (makeInputImage paintFailEngine).trace = 0 := by
  decide

/-! ## The run of main, step by step -/

theorem makeInputImage_trace_cases (e : Engine) :
    (makeInputImage e).trace =
        [Event.create Handle.image1 0, Event.create Handle.roi 0,
          Event.setPixels Handle.image1 0 0, Event.setPixels Handle.roi 255 0,
          Event.release Handle.roi] ∨
      (makeInputImage e).trace = [Event.create Handle.image1 e.image_status] ∨
      (makeInputImage e).trace =
        [Event.create Handle.image1 e.image_status, Event.create Handle.roi e.roi_status,
          Event.release Handle.image1] ∨
      (makeInputImage e).trace =
        [Event.create Handle.image1 e.image_status, Event.create Handle.roi e.roi_status,
          Event.setPixels Handle.image1 0 e.set_black_status, Event.release Handle.image1] ∨
      (makeInputImage e).trace =
        [Event.create Handle.image1 e.image_status, Event.create Handle.roi e.roi_status,
          Event.setPixels Handle.image1 0 e.set_black_status,
          Event.setPixels Handle.roi 255 e.set_white_status, Event.release Handle.image1] := by
  by_cases h1 : e.image_status = 0
  · by_cases h2 : e.roi_status = 0
    · by_cases h3 : e.set_black_status = 0
      · by_cases h4 : e.set_white_status = 0
        · left
          rw [makeInputImage_ok e ⟨h1, h2, h3, h4⟩]
        · have h4' : ¬ (0 = e.set_white_status) := fun h => h4 h.symm
          right; right; right; right
          simp [makeInputImage, vxCreateImage, vxCreateImageFromROI, vxSetImagePixelValues,
            vxGetStatus, VX_SUCCESS, h1, h2, h3, h4, h4']
      · have h3' : ¬ (0 = e.set_black_status) := fun h => h3 h.symm
        right; right; right; left
        simp [makeInputImage, vxCreateImage, vxCreateImageFromROI, vxSetImagePixelValues,
          vxGetStatus, VX_SUCCESS, h1, h2, h3, h3']
    · have h2' : ¬ (0 = e.roi_status) := fun h => h2 h.symm
      right; right; left
      simp [makeInputImage, vxCreateImage, vxCreateImageFromROI, vxGetStatus, VX_SUCCESS, h1, h2,
        h2']
  · have h1' : ¬ (0 = e.image_status) := fun h => h1 h.symm
    right; left
    simp [makeInputImage, vxCreateImage, vxGetStatus, VX_SUCCESS, h1, h1']

theorem stdout_makeInputImage (e : Engine) : stdout (makeInputImage e).trace = [] := by
  rcases makeInputImage_trace_cases e with h | h | h | h | h <;> rw [h] <;> rfl

theorem freeCount_makeInputImage (e : Engine) : freeCount (makeInputImage e).trace = 0 := by
  rcases makeInputImage_trace_cases e with h | h | h | h | h <;> rw [h] <;> rfl

theorem allocated_makeInputImage (e : Engine) : allocated (makeInputImage e).trace = false := by
  rcases makeInputImage_trace_cases e with h | h | h | h | h <;> rw [h] <;> rfl

theorem releaseCount_makeInputImage_le (e : Engine) (h : Handle) :
    releaseCount h (makeInputImage e).trace ≤ 1 := by
  rcases makeInputImage_trace_cases e with t | t | t | t | t <;> rw [t] <;>
    simp only [releaseCount] <;> (try split_ifs) <;> omega

theorem releaseCount_makeInputImage_other (e : Engine) (h : Handle)
    (h1 : h ≠ Handle.image1) (h2 : h ≠ Handle.roi) :
    releaseCount h (makeInputImage e).trace = 0 := by
  have h1' : ¬ Handle.image1 = h := fun x => h1 x.symm
  have h2' : ¬ Handle.roi = h := fun x => h2 x.symm
  rcases makeInputImage_trace_cases e with t | t | t | t | t <;> rw [t] <;>
    simp [releaseCount, h1', h2']

theorem readKp_not_mem_makeInputImage (e : Engine) (s : Handle) (i : Nat) :
    Event.readKp s i ∉ (makeInputImage e).trace := by
  rcases makeInputImage_trace_cases e with t | t | t | t | t <;> rw [t] <;> simp

theorem firstFailure_none_iff (e : Engine) : firstFailure e = none ↔ AllStepsSucceed e := by
  unfold firstFailure AllStepsSucceed
  rw [List.find?_eq_none]
  simp

theorem firstFailure_some_not_ok (e : Engine) (s : Step) (h : firstFailure e = some s) :
    stepOk e s = false := by
  unfold firstFailure at h
  have := List.find?_some h
  simpa using this

theorem stdout_abortEvents (m : String) :
    stdout (abortEvents m) = ["ERROR! \n", m ++ "\n"] := by
  simp only [abortEvents, puts, stdout]
  rfl

theorem releaseCount_eventsUpTo (e : Engine) (h : Handle) (s : Step) :
    releaseCount h (eventsUpTo e s) =
      if s = Step.context then 0 else releaseCount h (makeInputImage e).trace := by
  cases s <;>
    simp [eventsUpTo, segment, paramEvents, releaseCount_append, releaseCount,
      releaseCount_reportLoop]

theorem freeCount_eventsUpTo (e : Engine) (s : Step) : freeCount (eventsUpTo e s) = 0 := by
  cases s <;>
    simp [eventsUpTo, segment, paramEvents, freeCount_append, freeCount, freeCount_reportLoop,
      freeCount_makeInputImage]

theorem main_trace_code (e : Engine) :
    (∃ s, firstFailure e = some s ∧ (main e).code = 1 ∧
        (main e).trace = eventsUpTo e s ++ abortEvents (stepMessage s)) ∨
      (firstFailure e = none ∧ (main e).code = 0 ∧
        (main e).trace = eventsUpTo e Step.range1 ++
          (reportLoop Handle.corners1 (bufferAfterSecond e) e.total_plain e.total_plain 0 ++
            [Event.free, Event.release Handle.context])) := by
  rw [main_eq_runOf]
  unfold runOf
  cases h : firstFailure e with
  | none => exact Or.inr ⟨rfl, rfl, rfl⟩
  | some s => exact Or.inl ⟨s, rfl, rfl, rfl⟩

theorem allSteps_facts (e : Engine) (h : AllStepsSucceed e) :
    e.context_status = 0 ∧ SubStepsSucceed e ∧ ParamsOk e ∧ e.fast_nms_status = 0 ∧
      e.fast_plain_status = 0 ∧ e.copy_scalar_status = 0 ∧
      (e.copy_range_status = 0 ∧ e.total_nms ≤ (arrayStore 100 e.detected_nms).length) ∧
      e.copy_scalar1_status = 0 ∧
      (e.copy_range1_status = 0 ∧ e.total_plain ≤ (arrayStore 100 e.detected_plain).length) := by
  simpa [AllStepsSucceed, Step.all, stepOk] using h

theorem firstFailure_image (e : Engine) (h0 : e.context_status = 0) (h : ¬ SubStepsSucceed e) :
    firstFailure e = some Step.image := by
  simp [firstFailure, Step.all, stepOk, List.find?, h0, h]

theorem firstFailure_context_iff (e : Engine) (s : Step) (h : firstFailure e = some s) :
    s = Step.context ↔ ¬ e.context_status = 0 := by
  constructor
  · intro hs
    have := firstFailure_some_not_ok e s h
    rw [hs] at this
    simpa [stepOk] using this
  · intro h0
    have : firstFailure e = some Step.context := by
      simp [firstFailure, Step.all, stepOk, List.find?, h0]
    rw [this] at h
    exact (Option.some.inj h).symm

theorem firstFailure_late (e : Engine) (s : Step) (h : firstFailure e = some s)
    (hs : s = Step.count1 ∨ s = Step.range1) : stepOk e Step.range = true := by
  unfold firstFailure Step.all at h
  simp only [List.find?] at h
  cases h0 : stepOk e Step.context <;> simp [h0] at h
  · rcases hs with hs | hs <;> rw [hs] at h <;> cases h
  cases h1 : stepOk e Step.image <;> simp [h1] at h
  · rcases hs with hs | hs <;> rw [hs] at h <;> cases h
  cases h2 : stepOk e Step.params <;> simp [h2] at h
  · rcases hs with hs | hs <;> rw [hs] at h <;> cases h
  cases h3 : stepOk e Step.detect <;> simp [h3] at h
  · rcases hs with hs | hs <;> rw [hs] at h <;> cases h
  cases h4 : stepOk e Step.detect1 <;> simp [h4] at h
  · rcases hs with hs | hs <;> rw [hs] at h <;> cases h
  cases h5 : stepOk e Step.count <;> simp [h5] at h
  · rcases hs with hs | hs <;> rw [hs] at h <;> cases h
  cases h6 : stepOk e Step.range <;> simp [h6] at h
  · rcases hs with hs | hs <;> rw [hs] at h <;> cases h
  rfl

theorem releaseCount_main (e : Engine) (h : Handle) :
    releaseCount h (main e).trace =
      (if e.context_status = 0 then releaseCount h (makeInputImage e).trace else 0) +
        (if Handle.context = h then 1 else 0) := by
  rcases main_trace_code e with ⟨s, hs, -, ht⟩ | ⟨hn, -, ht⟩
  · have hiff := firstFailure_context_iff e s hs
    rw [ht, releaseCount_append, releaseCount_eventsUpTo]
    by_cases h0 : e.context_status = 0
    · have hne : ¬ s = Step.context := fun x => (hiff.1 x) h0
      simp [h0, hne, abortEvents, puts, releaseCount]
    · have hse : s = Step.context := hiff.2 h0
      simp [h0, hse, abortEvents, puts, releaseCount]
  · have h0 := (allSteps_facts e ((firstFailure_none_iff e).1 hn)).1
    rw [ht, releaseCount_append, releaseCount_append, releaseCount_eventsUpTo,
      releaseCount_reportLoop]
    simp [h0, releaseCount]

theorem freeCount_main (e : Engine) :
    freeCount (main e).trace = if (main e).code = 0 then 1 else 0 := by
  rcases main_trace_code e with ⟨s, -, hc, ht⟩ | ⟨-, hc, ht⟩
  · rw [ht, hc, freeCount_append, freeCount_eventsUpTo]
    simp [abortEvents, puts, freeCount]
  · rw [ht, hc, freeCount_append, freeCount_append, freeCount_eventsUpTo, freeCount_reportLoop]
    simp [freeCount]

theorem getD_take_append (items rest : List vx_keypoint_t) (n j : Nat) (d : vx_keypoint_t)
    (hj : j < n) (hn : n ≤ items.length) :
    (items.take n ++ rest).getD j d = items.getD j d := by
  have h1 : j < (items.take n).length := by
    rw [List.length_take]; omega
  have h2 : j < items.length := by omega
  rw [List.getD_append _ _ _ _ h1, List.getD_eq_getElem _ _ h1, List.getD_eq_getElem _ _ h2,
    List.getElem_take]

theorem vxCopyArrayRange_length (s : vx_status) (items user : List vx_keypoint_t) (b : Nat)
    (h : items.length ≤ user.length) :
    (vxCopyArrayRange s items 0 b user).2.length = user.length := by
  unfold vxCopyArrayRange
  by_cases hs : s = VX_SUCCESS
  · by_cases hb : b ≤ items.length
    · simp only [hs, hb, if_true, List.drop_zero, Nat.sub_zero, List.length_append,
        List.length_take, List.length_drop]
      omega
    · simp [hs, hb]
  · simp [hs]

theorem bufferAfterFirst_length (e : Engine) : (bufferAfterFirst e).length = 100 := by
  unfold bufferAfterFirst
  rw [vxCopyArrayRange_length]
  · simp
  · have := arrayStore_length_le 100 e.detected_nms
    simpa using this

theorem bufferAfterSecond_length (e : Engine) : (bufferAfterSecond e).length = 100 := by
  unfold bufferAfterSecond
  rw [vxCopyArrayRange_length, bufferAfterFirst_length]
  rw [bufferAfterFirst_length]
  exact arrayStore_length_le 100 e.detected_plain

theorem phaseOf_reportLoop (src : Handle) (kp : List vx_keypoint_t) (n fuel i : Nat) :
    ∃ k, (reportLoop src kp n fuel i).filterMap phaseOf = List.replicate k (Phase.report src) := by
  induction fuel generalizing i with
  | zero => exact ⟨0, by simp [reportLoop]⟩
  | succ f ih =>
    unfold reportLoop
    by_cases hi : i < n
    · obtain ⟨k, hk⟩ := ih (i + 1)
      exact ⟨k + 1, by simp [hi, phaseOf, hk, List.replicate_succ]⟩
    · exact ⟨0, by simp [hi]⟩

theorem compress_replicate (p : Phase) (k : Nat) (l : List Phase) :
    compress (p :: (List.replicate k p ++ l)) = compress (p :: l) := by
  induction k with
  | zero => simp
  | succ k ih =>
    rw [List.replicate_succ, List.cons_append]
    simp only [compress, if_true]
    exact ih

theorem readKp_mem_eventsUpTo (e : Engine) (s : Step) (src : Handle) (i : Nat)
    (h : Event.readKp src i ∈ eventsUpTo e s) :
    (s = Step.count1 ∨ s = Step.range1) ∧ src = Handle.corners ∧ i < e.total_nms := by
  have hm := readKp_not_mem_makeInputImage e src i
  cases s <;> simp [eventsUpTo, segment, paramEvents, hm] at h
  · have := mem_reportLoop _ _ _ _ _ _ _ h
    exact ⟨Or.inl rfl, this.1, this.2.2⟩
  · have := mem_reportLoop _ _ _ _ _ _ _ h
    exact ⟨Or.inr rfl, this.1, this.2.2⟩

theorem stdout_eventsUpTo_range1 (e : Engine) :
    stdout (eventsUpTo e Step.range1) =
      foundWith e.total_nms ::
        (stdout (reportLoop Handle.corners (bufferAfterFirst e) e.total_nms e.total_nms 0) ++
          [foundWithout e.total_plain]) := by
  simp [eventsUpTo, segment, paramEvents, stdout_append, stdout_makeInputImage, stdout]

theorem allSteps_of_calls (e : Engine) (h : EngineCallsSucceed e) (hk : e.calloc_ok = true) :
    AllStepsSucceed e := by
  obtain ⟨h0, h1, ⟨p1, p2, p3, p4, p5⟩, h3, h4, h5, h6, h7, h8⟩ := h
  have hp : ParamsOk e := ⟨hk, p1, p2, p3, p4, p5⟩
  intro s hs
  cases s <;> simp [stepOk, h0, h1, hp, h3, h4, h5, h6, h7, h8]

theorem fmt_3d_small (i : Nat) (h : i < 100) :
    fmt_3d (i : Int) = (if i < 10 then "  " else " ") ++ toString i := by
  interval_cases i <;> rfl

theorem entryLine_eq (i : Nat) (h : i < 100) (x y : Int) :
    entryLine i x y =
      "Entry " ++ (if i < 10 then "  " else " ") ++ toString i ++ ": x = " ++ toString x ++
        ", y = " ++ toString y ++ "\n" := by
  unfold entryLine
  rw [fmt_3d_small i h]
  simp only [String.append_assoc]

/-! ## Claims about main -/

/-- C2: main exits with code 0 exactly when every checked step succeeds; otherwise it exits with
code 1 and standard output ends with the line "ERROR! " followed by the line carrying the message
of the first step that failed, nothing being written after them. -/
theorem main_exit_code_and_error_message (e : Engine) :
    ((main e).code = 0 ↔ AllStepsSucceed e) ∧
      (¬ AllStepsSucceed e →
        (main e).code = 1 ∧
          ∃ s before, firstFailure e = some s ∧ stepOk e s = false ∧
            stdout (main e).trace = before ++ ["ERROR! \n", stepMessage s ++ "\n"]) := by
  rcases main_trace_code e with ⟨s, hs, hc, ht⟩ | ⟨hn, hc, -⟩
  · have hnot : ¬ AllStepsSucceed e := by
      rw [← firstFailure_none_iff, hs]
      simp
    refine ⟨by simp [hc, hnot], fun _ => ⟨hc, s, stdout (eventsUpTo e s), hs,
      firstFailure_some_not_ok e s hs, ?_⟩⟩
    rw [ht, stdout_append, stdout_abortEvents]
  · have hall : AllStepsSucceed e := (firstFailure_none_iff e).1 hn
    exact ⟨by simp [hc, hall], fun h => absurd hall h⟩

theorem main_exit_code_and_error_message_witness :
    ¬ AllStepsSucceed detectFailEngine ∧
      ((main detectFailEngine).code = 1 ∧
        ∃ s before, firstFailure detectFailEngine = some s ∧
          stepOk detectFailEngine s = false ∧
          stdout (main detectFailEngine).trace =
            before ++ ["ERROR! \n", stepMessage s ++ "\n"]) :=
  ⟨by decide, (main_exit_code_and_error_message detectFailEngine).2 (by decide)⟩

/-- C3: the pointer makeInputImage returns has a success status exactly when all four engine
sub-steps succeed; when one fails the status is not zero, and main, once its context is created,
stops at the check of the image with code 1 and the message "Could not create image". -/
theorem makeInputImage_valid_iff_substeps_succeed (e : Engine) :
    (vxGetStatus ((makeInputImage e).image.map fun i => i.ref) = VX_SUCCESS ↔
        SubStepsSucceed e) ∧
      (¬ SubStepsSucceed e →
        vxGetStatus ((makeInputImage e).image.map fun i => i.ref) ≠ 0 ∧
          (e.context_status = 0 →
            (main e).code = 1 ∧
              stdout (main e).trace = ["ERROR! \n", "Could not create image\n"])) := by
  refine ⟨makeInputImage_status e, fun h => ⟨fun hz => h ((makeInputImage_status e).1 hz), ?_⟩⟩
  intro h0
  have hf := firstFailure_image e h0 h
  rcases main_trace_code e with ⟨s, hs, hc, ht⟩ | ⟨hn, -, -⟩
  · rw [hf] at hs
    have hs' : s = Step.image := (Option.some.inj hs).symm
    refine ⟨hc, ?_⟩
    have hq : stdout (eventsUpTo e Step.image) = [] := by
      simp [eventsUpTo, segment, stdout_append, stdout_makeInputImage, stdout]
    rw [ht, hs', stdout_append, stdout_abortEvents, hq]
    rfl
  · rw [hf] at hn
    cases hn

/-- C4 (as amended): on every exit path of main the session handle is released exactly once, as
the last action before exit, and the local buffer is never freed twice.  On the success path
(exit code 0) the buffer was allocated and is freed exactly once; on every failure path through
errorCheck the program does not free it. -/
theorem main_teardown (e : Engine) :
    releaseCount Handle.context (main e).trace = 1 ∧
      (∃ before, (main e).trace = before ++ [Event.release Handle.context]) ∧
      freeCount (main e).trace ≤ 1 ∧
      ((main e).code = 0 → allocated (main e).trace = true ∧ freeCount (main e).trace = 1) ∧
      ((main e).code ≠ 0 → freeCount (main e).trace = 0) := by
  have hr := releaseCount_main e Handle.context
  have hf := freeCount_main e
  refine ⟨?_, ?_, ?_, ?_, ?_⟩
  · rw [hr]
    simp [releaseCount_makeInputImage_other]
  · rcases main_trace_code e with ⟨s, -, -, ht⟩ | ⟨-, -, ht⟩
    · exact ⟨eventsUpTo e s ++ [puts "ERROR! ", puts (stepMessage s)], by
        rw [ht]; simp [abortEvents]⟩
    · exact ⟨eventsUpTo e Step.range1 ++
        (reportLoop Handle.corners1 (bufferAfterSecond e) e.total_plain e.total_plain 0 ++
          [Event.free]), by rw [ht]; simp⟩
  · rw [hf]; split_ifs <;> omega
  · intro hc
    refine ⟨?_, by rw [hf]; simp [hc]⟩
    rcases main_trace_code e with ⟨s, -, hc1, -⟩ | ⟨hn, -, ht⟩
    · omega
    · have hp := (allSteps_facts e ((firstFailure_none_iff e).1 hn)).2.2.1
      rw [ht]
      simp [eventsUpTo, segment, paramEvents, allocated_append, allocated, hp.1]
  · intro hc
    rw [hf]; simp [hc]

/-- C4 (as stated) fails: when the first detection fails the buffer has been allocated, and the
program exits with code 1 without freeing it. -/
theorem main_abort_does_not_free_buffer :
    allocated (main detectFailEngine).trace = true ∧ (main detectFailEngine).code = 1 ∧
      freeCount (main detectFailEngine).trace = 0 := by
  decide

/-- C8 (as amended): on every run of main the session handle is released by exactly one explicit
call, and no handle is released twice.  The threshold scalar, the two output collections and the
two count scalars are never released by an explicit call; nor is the input image once
makeInputImage has returned it valid, in which case the region view has been released exactly
once. -/
theorem main_release_discipline (e : Engine) :
    releaseCount Handle.context (main e).trace = 1 ∧
      (∀ h, releaseCount h (main e).trace ≤ 1) ∧
      releaseCount Handle.strength_thresh (main e).trace = 0 ∧
      releaseCount Handle.corners (main e).trace = 0 ∧
      releaseCount Handle.corners1 (main e).trace = 0 ∧
      releaseCount Handle.num_corners (main e).trace = 0 ∧
      releaseCount Handle.num_corners1 (main e).trace = 0 ∧
      (e.context_status = 0 → SubStepsSucceed e →
        releaseCount Handle.roi (main e).trace = 1 ∧
          releaseCount Handle.image1 (main e).trace = 0) := by
  refine ⟨?_, ?_, ?_, ?_, ?_, ?_, ?_, ?_⟩
  · rw [releaseCount_main]
    simp [releaseCount_makeInputImage_other]
  · intro h
    rw [releaseCount_main]
    by_cases hc : Handle.context = h
    · subst hc
      simp [releaseCount_makeInputImage_other]
    · have := releaseCount_makeInputImage_le e h
      simp only [hc, if_false, Nat.add_zero]
      split_ifs <;> omega
  · rw [releaseCount_main]; simp [releaseCount_makeInputImage_other]
  · rw [releaseCount_main]; simp [releaseCount_makeInputImage_other]
  · rw [releaseCount_main]; simp [releaseCount_makeInputImage_other]
  · rw [releaseCount_main]; simp [releaseCount_makeInputImage_other]
  · rw [releaseCount_main]; simp [releaseCount_makeInputImage_other]
  · intro h0 hs
    rw [releaseCount_main, releaseCount_main, makeInputImage_ok e hs]
    simp [h0, releaseCount]

/-- C8 (as stated) fails: on a run where every call succeeds the driver obtains the input image
and the threshold scalar, and releases neither by an explicit call. -/
theorem main_leaves_handles_to_the_context :
    obtained Handle.image1 (main okEngine).trace = true ∧
      releaseCount Handle.image1 (main okEngine).trace = 0 ∧
      obtained Handle.strength_thresh (main okEngine).trace = true ∧
      releaseCount Handle.strength_thresh (main okEngine).trace = 0 := by
  decide

/-- C5 (as amended): on a successful run of main both detections are invoked first, suppression on
and then off; the report of the first detection, the report of the second and the teardown follow:
Init, BuildImage, AllocParams, Detect(nms=on), Detect(nms=off), Report, Report, Teardown. -/
theorem main_phase_order (e : Engine) (h : AllStepsSucceed e) :
    phases (main e).trace = codePhases := by
  obtain ⟨h0, h1, h2, h3, h4, h5, h6, h7, h8⟩ := allSteps_facts e h
  rcases main_trace_code e with ⟨s, hs, -, -⟩ | ⟨-, -, ht⟩
  · rw [(firstFailure_none_iff e).2 h] at hs
    cases hs
  · obtain ⟨k1, hk1⟩ := phaseOf_reportLoop Handle.corners (bufferAfterFirst e) e.total_nms
      e.total_nms 0
    obtain ⟨k2, hk2⟩ := phaseOf_reportLoop Handle.corners1 (bufferAfterSecond e) e.total_plain
      e.total_plain 0
    rw [ht]
    unfold phases
    simp only [eventsUpTo, segment, paramEvents, makeInputImage_ok e h1, List.filterMap_append,
      hk1, hk2]
    simp [phaseOf, compress, compress_replicate, codePhases]

theorem main_phase_order_witness :
    AllStepsSucceed okEngine ∧ phases (main okEngine).trace = codePhases :=
  ⟨by decide, main_phase_order okEngine (by decide)⟩

/-- C5 (as stated) fails: on a run where every step succeeds the states are not in the order of
the specification, Detect(nms=on), Report, Detect(nms=off), Report, Teardown. -/
theorem main_phase_order_differs_from_spec :
    AllStepsSucceed okEngine ∧ phases (main okEngine).trace ≠ specPhases := by
  decide

/-- C6 (as amended): when every engine call succeeds and the local buffer is allocated, with N1
and N2 the counts the engine reports for the detection with and without suppression, main exits
with code 0 and standard output is exactly: the line "Found N1 corners with non-max suppression";
for i = 0, ..., N1-1 in increasing order the line "Entry i: x = X, y = Y" with i right-aligned in
three columns and X, Y the coordinates of the i-th record of the first collection; the line
"Found N2 corners without non-max suppression"; and the N2 such lines of the second collection.
Every record printed exists, the counts being at most the number of records held. -/
theorem main_output_on_success (e : Engine) (h : EngineCallsSucceed e)
    (hk : e.calloc_ok = true) :
    (main e).code = 0 ∧
      e.total_nms ≤ (arrayStore 100 e.detected_nms).length ∧
      e.total_plain ≤ (arrayStore 100 e.detected_plain).length ∧
      stdout (main e).trace =
        ("Found " ++ toString e.total_nms ++ " corners with non-max suppression\n") ::
          ((List.range e.total_nms).map fun i =>
            "Entry " ++ (if i < 10 then "  " else " ") ++ toString i ++ ": x = " ++
              toString ((arrayStore 100 e.detected_nms).getD i zeroKeypoint).x ++ ", y = " ++
              toString ((arrayStore 100 e.detected_nms).getD i zeroKeypoint).y ++ "\n") ++
        ("Found " ++ toString e.total_plain ++ " corners without non-max suppression\n") ::
          ((List.range e.total_plain).map fun i =>
            "Entry " ++ (if i < 10 then "  " else " ") ++ toString i ++ ": x = " ++
              toString ((arrayStore 100 e.detected_plain).getD i zeroKeypoint).x ++ ", y = " ++
              toString ((arrayStore 100 e.detected_plain).getD i zeroKeypoint).y ++ "\n") := by
  have hall := allSteps_of_calls e h hk
  obtain ⟨h0, h1, h2, h3, h4, h5, h6, h7, h8⟩ := allSteps_facts e hall
  have hcap1 := arrayStore_length_le 100 e.detected_nms
  have hcap2 := arrayStore_length_le 100 e.detected_plain
  rcases main_trace_code e with ⟨s, hs, -, -⟩ | ⟨-, hc, ht⟩
  · rw [(firstFailure_none_iff e).2 hall] at hs
    cases hs
  · refine ⟨hc, h6.2, h8.2, ?_⟩
    have hb1 : bufferAfterFirst e =
        (arrayStore 100 e.detected_nms).take e.total_nms ++
          (List.replicate 100 zeroKeypoint).drop e.total_nms := by
      unfold bufferAfterFirst
      rw [h6.1, vxCopyArrayRange_ok _ _ _ h6.2]
    have hb2 : bufferAfterSecond e =
        (arrayStore 100 e.detected_plain).take e.total_plain ++
          (bufferAfterFirst e).drop e.total_plain := by
      unfold bufferAfterSecond
      rw [h8.1, vxCopyArrayRange_ok _ _ _ h8.2]
    have hl1 : stdout (reportLoop Handle.corners (bufferAfterFirst e) e.total_nms e.total_nms 0) =
        (List.range e.total_nms).map fun i =>
          "Entry " ++ (if i < 10 then "  " else " ") ++ toString i ++ ": x = " ++
            toString ((arrayStore 100 e.detected_nms).getD i zeroKeypoint).x ++ ", y = " ++
            toString ((arrayStore 100 e.detected_nms).getD i zeroKeypoint).y ++ "\n" := by
      rw [stdout_reportLoop _ _ _ _ _ (by omega), Nat.sub_zero, ← List.range_eq_range', hb1]
      apply List.map_congr_left
      intro i hi
      rw [List.mem_range] at hi
      rw [getD_take_append _ _ _ _ _ hi h6.2, entryLine_eq i (by omega)]
    have hl2 : stdout (reportLoop Handle.corners1 (bufferAfterSecond e) e.total_plain
        e.total_plain 0) =
        (List.range e.total_plain).map fun i =>
          "Entry " ++ (if i < 10 then "  " else " ") ++ toString i ++ ": x = " ++
            toString ((arrayStore 100 e.detected_plain).getD i zeroKeypoint).x ++ ", y = " ++
            toString ((arrayStore 100 e.detected_plain).getD i zeroKeypoint).y ++ "\n" := by
      rw [stdout_reportLoop _ _ _ _ _ (by omega), Nat.sub_zero, ← List.range_eq_range', hb2]
      apply List.map_congr_left
      intro i hi
      rw [List.mem_range] at hi
      rw [getD_take_append _ _ _ _ _ hi h8.2, entryLine_eq i (by omega)]
    rw [ht, stdout_append, stdout_append, stdout_eventsUpTo_range1, hl1, hl2]
    simp [stdout, foundWith, foundWithout]

theorem main_output_on_success_witness :
    EngineCallsSucceed okEngine ∧ okEngine.calloc_ok = true ∧
      (main okEngine).code = 0 ∧
      stdout (main okEngine).trace =
        ["Found 2 corners with non-max suppression\n",
          "Entry   0: x = 20, y = 40\n",
          "Entry   1: x = 79, y = 59\n",
          "Found 3 corners without non-max suppression\n",
          "Entry   0: x = 20, y = 40\n",
          "Entry   1: x = 21, y = 40\n",
          "Entry   2: x = 79, y = 59\n"] :=
  ⟨by decide, rfl, (main_output_on_success okEngine (by decide) rfl).1, by
    have h := (main_output_on_success okEngine (by decide) rfl).2.2.2
    rw [h]
    decide⟩

/-- C6 (as stated) fails: every engine call succeeds, `calloc` returns a null pointer, and main
exits with code 1 having written the two lines of errorCheck and no "Found" line. -/
theorem main_fails_when_calloc_fails :
    EngineCallsSucceed callocFailEngine ∧ (main callocFailEngine).code = 1 ∧
      stdout (main callocFailEngine).trace =
        ["ERROR! \n", "Could not create parameters for FastCorners\n"] := by
  decide

/-- C7: every index at which main reads the local buffer is below 100, the number of records the
buffer holds, below the count copied from the engine for the collection being reported, and below
the number of records that collection holds.  When the engine reports a count above 100 the run
aborts with code 1 before any read of the report concerned: no read at all for the first count,
no read of the second report for the second count. -/
theorem main_reads_within_bounds (e : Engine) :
    (bufferAfterFirst e).length = 100 ∧ (bufferAfterSecond e).length = 100 ∧
      (∀ src i, Event.readKp src i ∈ (main e).trace →
        i < 100 ∧
          ((src = Handle.corners ∧ i < e.total_nms ∧
              i < (arrayStore 100 e.detected_nms).length) ∨
            (src = Handle.corners1 ∧ i < e.total_plain ∧
              i < (arrayStore 100 e.detected_plain).length))) ∧
      (100 < e.total_nms →
        (main e).code = 1 ∧ ∀ src i, Event.readKp src i ∉ (main e).trace) ∧
      (100 < e.total_plain →
        (main e).code = 1 ∧ ∀ i, Event.readKp Handle.corners1 i ∉ (main e).trace) := by
  have hcap1 := arrayStore_length_le 100 e.detected_nms
  have hcap2 := arrayStore_length_le 100 e.detected_plain
  refine ⟨bufferAfterFirst_length e, bufferAfterSecond_length e, ?_, ?_, ?_⟩
  · intro src i hmem
    rcases main_trace_code e with ⟨s, hs, -, ht⟩ | ⟨hn, -, ht⟩
    · rw [ht, List.mem_append] at hmem
      rcases hmem with hmem | hmem
      · obtain ⟨hlate, hsrc, hi⟩ := readKp_mem_eventsUpTo e s src i hmem
        have hok := firstFailure_late e s hs hlate
        have hr : e.copy_range_status = 0 ∧
            e.total_nms ≤ (arrayStore 100 e.detected_nms).length := by
          simpa [stepOk] using hok
        exact ⟨by omega, Or.inl ⟨hsrc, hi, by omega⟩⟩
      · simp [abortEvents, puts] at hmem
    · obtain ⟨-, -, -, -, -, -, h6, -, h8⟩ := allSteps_facts e ((firstFailure_none_iff e).1 hn)
      rw [ht, List.mem_append, List.mem_append] at hmem
      rcases hmem with hmem | hmem | hmem
      · obtain ⟨-, hsrc, hi⟩ := readKp_mem_eventsUpTo e _ src i hmem
        exact ⟨by omega, Or.inl ⟨hsrc, hi, by omega⟩⟩
      · obtain ⟨hsrc, -, hi⟩ := mem_reportLoop _ _ _ _ _ _ _ hmem
        exact ⟨by omega, Or.inr ⟨hsrc, hi, by omega⟩⟩
      · simp at hmem
  · intro hbig
    rcases main_trace_code e with ⟨s, hs, hc, ht⟩ | ⟨hn, -, -⟩
    · refine ⟨hc, fun src i hmem => ?_⟩
      rw [ht, List.mem_append] at hmem
      rcases hmem with hmem | hmem
      · obtain ⟨hlate, -, -⟩ := readKp_mem_eventsUpTo e s src i hmem
        have hok := firstFailure_late e s hs hlate
        have hr : e.copy_range_status = 0 ∧
            e.total_nms ≤ (arrayStore 100 e.detected_nms).length := by
          simpa [stepOk] using hok
        omega
      · simp [abortEvents, puts] at hmem
    · obtain ⟨-, -, -, -, -, -, h6, -, -⟩ := allSteps_facts e ((firstFailure_none_iff e).1 hn)
      omega
  · intro hbig
    rcases main_trace_code e with ⟨s, hs, hc, ht⟩ | ⟨hn, -, -⟩
    · refine ⟨hc, fun i hmem => ?_⟩
      rw [ht, List.mem_append] at hmem
      rcases hmem with hmem | hmem
      · obtain ⟨-, hsrc, -⟩ := readKp_mem_eventsUpTo e s _ i hmem
        cases hsrc
      · simp [abortEvents, puts] at hmem
    · obtain ⟨-, -, -, -, -, -, -, -, h8⟩ := allSteps_facts e ((firstFailure_none_iff e).1 hn)
      omega

theorem main_reads_within_bounds_witness :
    Event.readKp Handle.corners1 2 ∈ (main okEngine).trace ∧
      (2 < 100 ∧
        ((Handle.corners1 = Handle.corners ∧ 2 < okEngine.total_nms ∧
            2 < (arrayStore 100 okEngine.detected_nms).length) ∨
          (Handle.corners1 = Handle.corners1 ∧ 2 < okEngine.total_plain ∧
            2 < (arrayStore 100 okEngine.detected_plain).length))) :=
  ⟨by decide, (main_reads_within_bounds okEngine).2.2.1 Handle.corners1 2 (by decide)⟩

end Example1
